import Mathlib

/-
  Verification of the ROI-calculator calculation core.

  The source is a single React component (src/app/page.tsx) whose domain
  logic is a sanitize-then-derive pipeline over five numeric inputs, plus
  chart projection data and two input handlers.  JavaScript numbers are
  modelled as exact rationals, with an explicit inductive wrapper that
  also carries the special values NaN, +Infinity and -Infinity, so the
  sanitizer (which uses JS truthiness and Math.min / Math.max) can be
  embedded faithfully.  The prior revision of the component
  (src/unnamed/part_001) is embedded in the Prev namespace.
-/

namespace ROI

/-- A JavaScript number as the sanitizer may receive it: an exact finite
value (modelled as a rational) or one of NaN, +Infinity, -Infinity. -/
inductive JSNum where
  | fin (q : ℚ)
  | nan
  | posInf
  | negInf
deriving DecidableEq

/-- JavaScript truthiness for numbers: 0, -0 and NaN are falsy. -/
def JSNum.falsy : JSNum → Bool
  | .fin q => q = 0
  | .nan => true
  | .posInf => false
  | .negInf => false

/-- The JavaScript expression  v || d  for a number v and finite default d. -/
def jsOr (v : JSNum) (d : ℚ) : JSNum :=
  if v.falsy then .fin d else v

/-- JS Math.min with a finite first argument, as used in the clamps. -/
def jsMin (c : ℚ) : JSNum → JSNum
  | .fin q => .fin (min c q)
  | .nan => .nan
  | .posInf => .fin c
  | .negInf => .negInf

/-- JS Math.max with a finite first argument, as used in the clamps. -/
def jsMax (c : ℚ) : JSNum → JSNum
  | .fin q => .fin (max c q)
  | .nan => .nan
  | .posInf => .posInf
  | .negInf => .fin c

/-- Extract the finite value of a JS number (0 for the special values;
only applied where finiteness is proved). -/
def JSNum.toQ : JSNum → ℚ
  | .fin q => q
  | _ => 0

/-- The raw, user-edited input record of the latest revision
(page.tsx, the Inputs state). -/
structure RawInputs where
  yearlyIntegrationCost : JSNum
  monthlySalary : JSNum
  companySize : JSNum
  hoursPerWeek : JSNum
  errorCorrectionHours : JSNum
deriving DecidableEq

/-- A sanitized input record: every field a finite number. -/
structure SanInputs where
  yearlyIntegrationCost : ℚ
  monthlySalary : ℚ
  companySize : ℚ
  hoursPerWeek : ℚ
  errorCorrectionHours : ℚ
deriving DecidableEq

/-- One field of the sanitizer, exactly as written in page.tsx:
Math.max(lo, Math.min(hi, v || d)). -/
def sanitizeFieldJS (lo hi d : ℚ) (v : JSNum) : JSNum :=
  jsMax lo (jsMin hi (jsOr v d))

/-- The finite value produced by one sanitizer field. -/
def sanitizeField (lo hi d : ℚ) (v : JSNum) : ℚ :=
  (sanitizeFieldJS lo hi d v).toQ

/-- The record-level sanitizer of page.tsx (sanitizedInputs in the
calculations effect), kept JS-number-valued so it can be composed. -/
def sanitizeJS (i : RawInputs) : RawInputs :=
  { yearlyIntegrationCost := sanitizeFieldJS 0 25000 0 i.yearlyIntegrationCost
    monthlySalary := sanitizeFieldJS 10000 500000 0 i.monthlySalary
    companySize := sanitizeFieldJS 70 2000 70 i.companySize
    hoursPerWeek := sanitizeFieldJS 1 40 0 i.hoursPerWeek
    errorCorrectionHours := sanitizeFieldJS 0 20 0 i.errorCorrectionHours }

/-- The sanitized record as consumed by the derivation code. -/
def sanitizedInputs (i : RawInputs) : SanInputs :=
  { yearlyIntegrationCost := sanitizeField 0 25000 0 i.yearlyIntegrationCost
    monthlySalary := sanitizeField 10000 500000 0 i.monthlySalary
    companySize := sanitizeField 70 2000 70 i.companySize
    hoursPerWeek := sanitizeField 1 40 0 i.hoursPerWeek
    errorCorrectionHours := sanitizeField 0 20 0 i.errorCorrectionHours }

/-- hrCount: Math.ceil(companySize / 70), one HR per 70 employees. -/
def hrCount (s : SanInputs) : ℤ :=
  ⌈s.companySize / 70⌉

/-- hourlyRate = monthlySalary / 160. -/
def hourlyRate (s : SanInputs) : ℚ :=
  s.monthlySalary / 160

/-- annualHoursPerHR = hoursPerWeek * 52 + errorCorrectionHours * 12. -/
def annualHoursPerHR (s : SanInputs) : ℚ :=
  s.hoursPerWeek * 52 + s.errorCorrectionHours * 12

/-- totalAnnualHours = annualHoursPerHR * hrCount. -/
def totalAnnualHours (s : SanInputs) : ℚ :=
  annualHoursPerHR s * (hrCount s : ℚ)

/-- manualAnnualCost = totalAnnualHours * hourlyRate. -/
def manualAnnualCost (s : SanInputs) : ℚ :=
  totalAnnualHours s * hourlyRate s

/-- apiFirstYearCost = sanitized yearlyIntegrationCost. -/
def apiFirstYearCost (s : SanInputs) : ℚ :=
  s.yearlyIntegrationCost

/-- year1Returns = Math.max(0, manualAnnualCost - apiFirstYearCost). -/
def year1Returns (s : SanInputs) : ℚ :=
  max 0 (manualAnnualCost s - apiFirstYearCost s)

/-- savings3Year = Math.max(0, manualAnnualCost * 3 - yearlyIntegrationCost * 3). -/
def savings3Year (s : SanInputs) : ℚ :=
  max 0 (manualAnnualCost s * 3 - s.yearlyIntegrationCost * 3)

/-- roiPercent: guarded division by the first-year automation cost. -/
def roiPercent (s : SanInputs) : ℚ :=
  if apiFirstYearCost s > 0 then max 0 (year1Returns s / apiFirstYearCost s * 100) else 0

/-- breakevenMonths: guarded division by the monthly manual cost. -/
def breakevenMonths (s : SanInputs) : ℚ :=
  if manualAnnualCost s / 12 > 0 then s.yearlyIntegrationCost / (manualAnnualCost s / 12) else 0

/-- The default Inputs state of page.tsx. -/
def defaultInputs : RawInputs :=
  { yearlyIntegrationCost := .fin 5000
    monthlySalary := .fin 50000
    companySize := .fin 280
    hoursPerWeek := .fin 4
    errorCorrectionHours := .fin 2 }

/-- handleCompanySizeChange: sets companySize to the new value and
hoursPerWeek to Math.ceil(newSize / 70), leaving the other fields. -/
def handleCompanySizeChange (newSize : ℚ) (i : RawInputs) : RawInputs :=
  { i with companySize := .fin newSize
           hoursPerWeek := .fin ((⌈newSize / 70⌉ : ℤ) : ℚ) }

/-- The onChange handler of the hours-per-week input group:
setInputs with only hoursPerWeek replaced. -/
def setHoursPerWeek (val : ℚ) (i : RawInputs) : RawInputs :=
  { i with hoursPerWeek := .fin val }

/-- JS Math.round on a rational: round half toward positive infinity. -/
def jsRound (q : ℚ) : ℤ :=
  ⌊q + 1 / 2⌋

/-- inflationRate = 1.08 (8 percent yearly salary inflation, chart only). -/
def inflationRate : ℚ := 1.08

/-- manualY2 = manualY1 * inflationRate. -/
def manualY2 (m : ℚ) : ℚ := m * inflationRate

/-- manualY3 = manualY2 * inflationRate. -/
def manualY3 (m : ℚ) : ℚ := manualY2 m * inflationRate

/-- cumulativeManualY2 = manualY1 + manualY2. -/
def cumulativeManualY2 (m : ℚ) : ℚ := m + manualY2 m

/-- cumulativeManualY3 = manualY1 + manualY2 + manualY3. -/
def cumulativeManualY3 (m : ℚ) : ℚ := m + manualY2 m + manualY3 m

/-- One row of the recharts data: year label, rounded cumulative manual
cost, rounded cumulative automation cost. -/
structure ChartRow where
  name : String
  manualProcess : ℤ
  apiAutomation : ℤ
deriving DecidableEq

/-- chartData, built from results.manualAnnualCost (m) and
results.apiFirstYearCost (a) exactly as in page.tsx: the manual line is
the rounded cumulative inflated cost, the automation line is the rounded
first-year cost in all three years. -/
def chartData (m a : ℚ) : List ChartRow :=
  [ { name := "Year 1", manualProcess := jsRound m, apiAutomation := jsRound a }
  , { name := "Year 2", manualProcess := jsRound (cumulativeManualY2 m), apiAutomation := jsRound a }
  , { name := "Year 3", manualProcess := jsRound (cumulativeManualY3 m), apiAutomation := jsRound a } ]

/-- The clamp function clamp(lo, hi, x) = max(lo, min(hi, x)) on rationals. -/
def clampQ (lo hi x : ℚ) : ℚ := max lo (min hi x)

/-- Modelled from the spec sentence for the sanitizer contract:
sanitized = clamp(isFinite(raw) ? raw : fallbackDefault, min, max).
A non-finite raw value (NaN, +Infinity, -Infinity) is replaced by the
fallback default and the result is clamped.  This is the SPEC formula,
to be compared against sanitizeField, which embeds the source. -/
def specSanitizeField (lo hi d : ℚ) : JSNum → ℚ
  | .fin q => clampQ lo hi q
  | _ => clampQ lo hi d

/-- The spec-formula sanitizer at record level, with the fallback
defaults the source uses in its falsy-coalescing (0, 0, 70, 0, 0). -/
def specSanitizedInputs (i : RawInputs) : SanInputs :=
  { yearlyIntegrationCost := specSanitizeField 0 25000 0 i.yearlyIntegrationCost
    monthlySalary := specSanitizeField 10000 500000 0 i.monthlySalary
    companySize := specSanitizeField 70 2000 70 i.companySize
    hoursPerWeek := specSanitizeField 1 40 0 i.hoursPerWeek
    errorCorrectionHours := specSanitizeField 0 20 0 i.errorCorrectionHours }

/-- The corrected description of one sanitizer field: NaN and falsy 0 are
replaced by the fallback default and then clamped; +Infinity clamps to
the upper bound, -Infinity to the lower bound. -/
def amendedSanitizeField (lo hi d : ℚ) : JSNum → ℚ
  | .fin q => clampQ lo hi (if q = 0 then d else q)
  | .nan => clampQ lo hi d
  | .posInf => max lo hi
  | .negInf => lo

/-- The corrected sanitizer at record level. -/
def amendedSanitizedInputs (i : RawInputs) : SanInputs :=
  { yearlyIntegrationCost := amendedSanitizeField 0 25000 0 i.yearlyIntegrationCost
    monthlySalary := amendedSanitizeField 10000 500000 0 i.monthlySalary
    companySize := amendedSanitizeField 70 2000 70 i.companySize
    hoursPerWeek := amendedSanitizeField 1 40 0 i.hoursPerWeek
    errorCorrectionHours := amendedSanitizeField 0 20 0 i.errorCorrectionHours }

end ROI

namespace Prev

/-- The sanitized input record of the prior revision
(src/unnamed/part_001): no companySize field, apiCost instead of
yearlyIntegrationCost. -/
structure SanInputs where
  apiCost : ℚ
  monthlySalary : ℚ
  hoursPerWeek : ℚ
  errorCorrectionHours : ℚ
deriving DecidableEq

/-- Prior revision: hourlyRate = monthlySalary / 160. -/
def hourlyRate (s : SanInputs) : ℚ := s.monthlySalary / 160

/-- Prior revision: annualManualHours = hoursPerWeek * 52 + errorCorrectionHours * 12. -/
def annualManualHours (s : SanInputs) : ℚ :=
  s.hoursPerWeek * 52 + s.errorCorrectionHours * 12

/-- Prior revision: manualAnnualCost = annualManualHours * hourlyRate. -/
def manualAnnualCost (s : SanInputs) : ℚ :=
  annualManualHours s * hourlyRate s

/-- Prior revision: apiFirstYearCost = sanitized apiCost. -/
def apiFirstYearCost (s : SanInputs) : ℚ := s.apiCost

/-- Prior revision: api3Year = apiFirstYearCost (one-time cost model). -/
def api3Year (s : SanInputs) : ℚ := apiFirstYearCost s

/-- Prior revision: savings3Year = manualAnnualCost * 3 - api3Year,
with no clamp to zero. -/
def savings3Year (s : SanInputs) : ℚ :=
  manualAnnualCost s * 3 - api3Year s

end Prev

namespace ROI

/-- Each sanitizer field agrees with its corrected case description. -/
theorem sanitizeField_eq_amendedField (lo hi d : ℚ) (v : JSNum) :
    sanitizeField lo hi d v = amendedSanitizeField lo hi d v := by
  cases v with
  | fin q =>
    by_cases hq : q = 0 <;>
      simp [sanitizeField, sanitizeFieldJS, jsOr, jsMin, jsMax, JSNum.falsy,
        JSNum.toQ, amendedSanitizeField, clampQ, hq]
  | nan =>
    simp [sanitizeField, sanitizeFieldJS, jsOr, jsMin, jsMax, JSNum.falsy,
      JSNum.toQ, amendedSanitizeField, clampQ]
  | posInf =>
    simp [sanitizeField, sanitizeFieldJS, jsOr, jsMin, jsMax, JSNum.falsy,
      JSNum.toQ, amendedSanitizeField, clampQ]
  | negInf =>
    simp [sanitizeField, sanitizeFieldJS, jsOr, jsMin, jsMax, JSNum.falsy,
      JSNum.toQ, amendedSanitizeField, clampQ]

/-- A sanitized field never falls below its lower bound. -/
theorem le_sanitizeField (lo hi d : ℚ) (v : JSNum) (_h : lo ≤ hi) :
    lo ≤ sanitizeField lo hi d v := by
  rw [sanitizeField_eq_amendedField]
  cases v with
  | fin q => simp only [amendedSanitizeField, clampQ]; exact le_max_left _ _
  | nan => simp only [amendedSanitizeField, clampQ]; exact le_max_left _ _
  | posInf => simp only [amendedSanitizeField]; exact le_max_left _ _
  | negInf => simp only [amendedSanitizeField]; exact le_rfl

/-- A sanitized field never exceeds its upper bound. -/
theorem sanitizeField_le (lo hi d : ℚ) (v : JSNum) (h : lo ≤ hi) :
    sanitizeField lo hi d v ≤ hi := by
  rw [sanitizeField_eq_amendedField]
  cases v with
  | fin q => exact max_le h (min_le_left _ _)
  | nan => exact max_le h (min_le_left _ _)
  | posInf => simp only [amendedSanitizeField]; exact max_le h le_rfl
  | negInf => simp only [amendedSanitizeField]; exact h

/-- All five sanitized fields lie inside their documented ranges. -/
theorem sanitized_bounds (i : RawInputs) :
    0 ≤ (sanitizedInputs i).yearlyIntegrationCost ∧
    (sanitizedInputs i).yearlyIntegrationCost ≤ 25000 ∧
    10000 ≤ (sanitizedInputs i).monthlySalary ∧
    (sanitizedInputs i).monthlySalary ≤ 500000 ∧
    70 ≤ (sanitizedInputs i).companySize ∧
    (sanitizedInputs i).companySize ≤ 2000 ∧
    1 ≤ (sanitizedInputs i).hoursPerWeek ∧
    (sanitizedInputs i).hoursPerWeek ≤ 40 ∧
    0 ≤ (sanitizedInputs i).errorCorrectionHours ∧
    (sanitizedInputs i).errorCorrectionHours ≤ 20 := by
  simp only [sanitizedInputs]
  refine ⟨?_, ?_, ?_, ?_, ?_, ?_, ?_, ?_, ?_, ?_⟩ <;>
    first
      | exact le_sanitizeField _ _ _ _ (by norm_num)
      | exact sanitizeField_le _ _ _ _ (by norm_num)

/-- The derived headcount of a sanitized record is at least one. -/
theorem one_le_hrCount (i : RawInputs) : 1 ≤ hrCount (sanitizedInputs i) := by
  have h : (70 : ℚ) ≤ (sanitizedInputs i).companySize := (sanitized_bounds i).2.2.2.2.1
  have hpos : (0 : ℚ) < (sanitizedInputs i).companySize / 70 :=
    div_pos (by linarith) (by norm_num)
  exact Int.one_le_ceil_iff.mpr hpos

/-- The manual annual cost of a sanitized record is at least 3250. -/
theorem manualAnnualCost_lb (i : RawInputs) :
    3250 ≤ manualAnnualCost (sanitizedInputs i) := by
  obtain ⟨h1, h2, h3, h4, h5, h6, h7, h8, h9, h10⟩ := sanitized_bounds i
  have hc : (1 : ℚ) ≤ ((hrCount (sanitizedInputs i) : ℤ) : ℚ) := by
    exact_mod_cast one_le_hrCount i
  have hA : (52 : ℚ) ≤ annualHoursPerHR (sanitizedInputs i) := by
    simp only [annualHoursPerHR]; linarith
  have hR : (125 / 2 : ℚ) ≤ hourlyRate (sanitizedInputs i) := by
    simp only [hourlyRate]; linarith
  have hT : (52 : ℚ) ≤ totalAnnualHours (sanitizedInputs i) := by
    have := mul_le_mul hA hc (by norm_num) (by linarith)
    simp only [totalAnnualHours]; linarith
  have hm := mul_le_mul hT hR (by norm_num) (by linarith)
  simp only [manualAnnualCost]; linarith

/-- The manual annual cost of a sanitized record is strictly positive. -/
theorem manualAnnualCost_pos (i : RawInputs) :
    0 < manualAnnualCost (sanitizedInputs i) :=
  lt_of_lt_of_le (by norm_num) (manualAnnualCost_lb i)

/-- A sanitizer field always produces a finite JS number, namely the
rational value sanitizeField computes. -/
theorem sanitizeFieldJS_fin (lo hi d : ℚ) (v : JSNum) :
    sanitizeFieldJS lo hi d v = .fin (sanitizeField lo hi d v) := by
  cases v with
  | fin q =>
    by_cases hq : q = 0 <;>
      simp [sanitizeFieldJS, sanitizeField, jsOr, jsMin, jsMax, JSNum.falsy,
        JSNum.toQ, hq]
  | nan =>
    simp [sanitizeFieldJS, sanitizeField, jsOr, jsMin, jsMax, JSNum.falsy, JSNum.toQ]
  | posInf =>
    simp [sanitizeFieldJS, sanitizeField, jsOr, jsMin, jsMax, JSNum.falsy, JSNum.toQ]
  | negInf =>
    simp [sanitizeFieldJS, sanitizeField, jsOr, jsMin, jsMax, JSNum.falsy, JSNum.toQ]

/-- One sanitizer field is idempotent whenever its bounds are ordered
and, in case zero is reachable, the clamped default is zero. -/
theorem sanitizeFieldJS_idem (lo hi d : ℚ) (h1 : lo ≤ hi)
    (h2 : lo ≤ 0 → clampQ lo hi d = 0) (v : JSNum) :
    sanitizeFieldJS lo hi d (sanitizeFieldJS lo hi d v) = sanitizeFieldJS lo hi d v := by
  rw [sanitizeFieldJS_fin lo hi d v]
  have hlo : lo ≤ sanitizeField lo hi d v := le_sanitizeField lo hi d v h1
  have hhi : sanitizeField lo hi d v ≤ hi := sanitizeField_le lo hi d v h1
  by_cases hq : sanitizeField lo hi d v = 0
  · have hlo0 : lo ≤ 0 := hq ▸ hlo
    have hd : clampQ lo hi d = 0 := h2 hlo0
    simp only [clampQ] at hd
    simp [sanitizeFieldJS, jsOr, jsMin, jsMax, JSNum.falsy, hq, hd]
  · simp only [sanitizeFieldJS, jsOr, JSNum.falsy]
    rw [if_neg (by simpa using hq)]
    simp only [jsMin, jsMax]
    rw [min_eq_right hhi, max_eq_right hlo]

/-- C1: for every sanitized input record every output metric of the
derivation engine is non-negative (year1Savings, savings3Year and
roiPercent are all at least zero), and on Scenario B (monthly salary
20000, one hour per week, no error-correction hours, yearly integration
cost 15000, one staff member) the engine returns manualAnnualCost 6500,
year1Savings 0 and roiPercent 0, never a negative benefit. -/
theorem claim1_nonneg_and_scenarioB :
    (∀ i : RawInputs,
      0 ≤ year1Returns (sanitizedInputs i) ∧
      0 ≤ savings3Year (sanitizedInputs i) ∧
      0 ≤ roiPercent (sanitizedInputs i)) ∧
    manualAnnualCost (sanitizedInputs ⟨.fin 15000, .fin 20000, .fin 70, .fin 1, .fin 0⟩) = 6500 ∧
    year1Returns (sanitizedInputs ⟨.fin 15000, .fin 20000, .fin 70, .fin 1, .fin 0⟩) = 0 ∧
    roiPercent (sanitizedInputs ⟨.fin 15000, .fin 20000, .fin 70, .fin 1, .fin 0⟩) = 0 := by
  refine ⟨fun i => ⟨le_max_left _ _, le_max_left _ _, ?_⟩, ?_, ?_, ?_⟩
  · unfold roiPercent
    split
    · exact le_max_left _ _
    · exact le_rfl
  all_goals
    norm_num [manualAnnualCost, totalAnnualHours, annualHoursPerHR, hourlyRate,
      hrCount, year1Returns, apiFirstYearCost, roiPercent, sanitizedInputs,
      sanitizeField, sanitizeFieldJS, jsOr, jsMin, jsMax, JSNum.falsy, JSNum.toQ]

/-- C2: on Scenario A (yearly integration cost 5000, monthly salary
50000, company size at the 70 lower bound so that the staff count is
one, four hours per week, two error-correction hours) the engine
returns hourlyRate 312.5, total annual manual hours 232, manualAnnualCost
72500, year1Savings 67500 and roiPercent 1350, exactly. -/
theorem claim2_scenarioA :
    hourlyRate (sanitizedInputs ⟨.fin 5000, .fin 50000, .fin 70, .fin 4, .fin 2⟩) = 312.5 ∧
    hrCount (sanitizedInputs ⟨.fin 5000, .fin 50000, .fin 70, .fin 4, .fin 2⟩) = 1 ∧
    totalAnnualHours (sanitizedInputs ⟨.fin 5000, .fin 50000, .fin 70, .fin 4, .fin 2⟩) = 232 ∧
    manualAnnualCost (sanitizedInputs ⟨.fin 5000, .fin 50000, .fin 70, .fin 4, .fin 2⟩) = 72500 ∧
    year1Returns (sanitizedInputs ⟨.fin 5000, .fin 50000, .fin 70, .fin 4, .fin 2⟩) = 67500 ∧
    roiPercent (sanitizedInputs ⟨.fin 5000, .fin 50000, .fin 70, .fin 4, .fin 2⟩) = 1350 := by
  norm_num [manualAnnualCost, totalAnnualHours, annualHoursPerHR, hourlyRate,
    hrCount, year1Returns, apiFirstYearCost, roiPercent, sanitizedInputs,
    sanitizeField, sanitizeFieldJS, jsOr, jsMin, jsMax, JSNum.falsy, JSNum.toQ]

/-- C3: whenever the sanitized yearly integration cost is zero, the
engine returns roiPercent 0 (a defined value, never a division error)
and year1Savings equal to manualAnnualCost; the engine is a total
function of the sanitized record. -/
theorem claim3_zero_cost (i : RawInputs)
    (h : (sanitizedInputs i).yearlyIntegrationCost = 0) :
    roiPercent (sanitizedInputs i) = 0 ∧
    year1Returns (sanitizedInputs i) = manualAnnualCost (sanitizedInputs i) := by
  constructor
  · simp [roiPercent, apiFirstYearCost, h]
  · simp only [year1Returns, apiFirstYearCost, h, sub_zero]
    exact max_eq_right (le_of_lt (manualAnnualCost_pos i))

/-- Witness for C3: the zero-cost hypothesis holds on the concrete raw
record with yearly integration cost 0 and default remaining fields. -/
theorem claim3_zero_cost_instance :
    roiPercent (sanitizedInputs ⟨.fin 0, .fin 50000, .fin 70, .fin 4, .fin 2⟩) = 0 ∧
    year1Returns (sanitizedInputs ⟨.fin 0, .fin 50000, .fin 70, .fin 4, .fin 2⟩) =
      manualAnnualCost (sanitizedInputs ⟨.fin 0, .fin 50000, .fin 70, .fin 4, .fin 2⟩) :=
  claim3_zero_cost ⟨.fin 0, .fin 50000, .fin 70, .fin 4, .fin 2⟩ (by
    norm_num [sanitizedInputs, sanitizeField, sanitizeFieldJS, jsOr, jsMin, jsMax,
      JSNum.falsy, JSNum.toQ])

/-- C4 counterexample: on the raw record whose yearlyIntegrationCost is
+Infinity, the source sanitizer clamps to the upper bound 25000, while
the spec formula clamp(isFinite(raw) ? raw : fallbackDefault, min, max)
yields the clamped fallback 0; the claimed contract is false. -/
theorem claim4_sanitizer_counterexample :
    (sanitizedInputs ⟨.posInf, .fin 50000, .fin 280, .fin 4, .fin 2⟩).yearlyIntegrationCost ≠
    (specSanitizedInputs ⟨.posInf, .fin 50000, .fin 280, .fin 4, .fin 2⟩).yearlyIntegrationCost := by
  norm_num [sanitizedInputs, specSanitizedInputs, sanitizeField, sanitizeFieldJS,
    specSanitizeField, jsOr, jsMin, jsMax, JSNum.falsy, JSNum.toQ, clampQ]

/-- C4 amended: for every raw record each sanitized field equals
clamp(raw, min, max) after NaN and falsy zero are first replaced by the
field fallback default; +Infinity clamps to the upper bound and
-Infinity to the lower bound rather than being replaced; hence every
sanitized field is a finite number within its documented range, and the
sanitizer is a total function. -/
theorem claim4_sanitizer_amended (i : RawInputs) :
    sanitizedInputs i = amendedSanitizedInputs i ∧
    (0 ≤ (sanitizedInputs i).yearlyIntegrationCost ∧
     (sanitizedInputs i).yearlyIntegrationCost ≤ 25000 ∧
     10000 ≤ (sanitizedInputs i).monthlySalary ∧
     (sanitizedInputs i).monthlySalary ≤ 500000 ∧
     70 ≤ (sanitizedInputs i).companySize ∧
     (sanitizedInputs i).companySize ≤ 2000 ∧
     1 ≤ (sanitizedInputs i).hoursPerWeek ∧
     (sanitizedInputs i).hoursPerWeek ≤ 40 ∧
     0 ≤ (sanitizedInputs i).errorCorrectionHours ∧
     (sanitizedInputs i).errorCorrectionHours ≤ 20) := by
  refine ⟨?_, sanitized_bounds i⟩
  simp only [sanitizedInputs, amendedSanitizedInputs, sanitizeField_eq_amendedField]

/-- C5: the derived staff count is a non-decreasing function of the
sanitized company size and equals the ceiling of companySize / 70
everywhere; concretely company sizes 70, 140, 141, 280, 700 give staff
counts 1, 2, 3, 4, 10, and the staff count of every sanitized record is
at least one because companySize is clamped to a minimum of 70. -/
theorem claim5_headcount :
    (∀ s t : SanInputs, s.companySize ≤ t.companySize → hrCount s ≤ hrCount t) ∧
    (∀ s : SanInputs, hrCount s = ⌈s.companySize / 70⌉) ∧
    hrCount ⟨0, 0, 70, 0, 0⟩ = 1 ∧
    hrCount ⟨0, 0, 140, 0, 0⟩ = 2 ∧
    hrCount ⟨0, 0, 141, 0, 0⟩ = 3 ∧
    hrCount ⟨0, 0, 280, 0, 0⟩ = 4 ∧
    hrCount ⟨0, 0, 700, 0, 0⟩ = 10 ∧
    ∀ i : RawInputs, 1 ≤ hrCount (sanitizedInputs i) := by
  refine ⟨fun s t h => ?_, fun s => rfl, ?_, ?_, ?_, ?_, ?_, one_le_hrCount⟩
  · exact Int.ceil_le_ceil (by linarith)
  all_goals norm_num [hrCount, Int.ceil_eq_iff]

/-- Witness for C5: the monotonicity hypothesis discharged at the
concrete sanitized company sizes 70 and 140. -/
theorem claim5_headcount_instance :
    hrCount ⟨0, 0, 70, 0, 0⟩ ≤ hrCount ⟨0, 0, 140, 0, 0⟩ :=
  claim5_headcount.1 ⟨0, 0, 70, 0, 0⟩ ⟨0, 0, 140, 0, 0⟩ (by norm_num)

/-- C6 counterexample: after the user manually sets hoursPerWeek to 7,
changing companySize to 280 through the company-size handler does not
keep the manual override; hoursPerWeek becomes ceil(280/70) = 4, so the
claimed unless-manually-overridden exception is false. -/
theorem claim6_override_counterexample :
    (handleCompanySizeChange 280 (setHoursPerWeek 7 defaultInputs)).hoursPerWeek ≠
      JSNum.fin 7 := by
  have h4 : ((280 : ℚ) / 70) = 4 := by norm_num
  norm_num [handleCompanySizeChange, setHoursPerWeek, defaultInputs, h4]

/-- C6 amended: every company-size change through the handler
unconditionally sets companySize to the new value and recomputes
hoursPerWeek as ceil(newSize / 70), even when hoursPerWeek was manually
overridden beforehand; conversely, editing hoursPerWeek directly changes
only hoursPerWeek and never writes back into companySize or any other
field. -/
theorem claim6_handler_amended (n h : ℚ) (i : RawInputs) :
    (handleCompanySizeChange n i).companySize = JSNum.fin n ∧
    (handleCompanySizeChange n i).hoursPerWeek = JSNum.fin ((⌈n / 70⌉ : ℤ) : ℚ) ∧
    (handleCompanySizeChange n (setHoursPerWeek h i)).hoursPerWeek =
      JSNum.fin ((⌈n / 70⌉ : ℤ) : ℚ) ∧
    (handleCompanySizeChange n i).yearlyIntegrationCost = i.yearlyIntegrationCost ∧
    (handleCompanySizeChange n i).monthlySalary = i.monthlySalary ∧
    (handleCompanySizeChange n i).errorCorrectionHours = i.errorCorrectionHours ∧
    (setHoursPerWeek h i).hoursPerWeek = JSNum.fin h ∧
    (setHoursPerWeek h i).companySize = i.companySize ∧
    (setHoursPerWeek h i).yearlyIntegrationCost = i.yearlyIntegrationCost ∧
    (setHoursPerWeek h i).monthlySalary = i.monthlySalary ∧
    (setHoursPerWeek h i).errorCorrectionHours = i.errorCorrectionHours := by
  simp [handleCompanySizeChange, setHoursPerWeek]

/-- C7: in the latest revision savings3Year equals
max(0, manualAnnualCost * 3 - yearlyIntegrationCost * 3) under the
yearly-recurring cost model, which is three times year1Savings; the
prior revision instead subtracts the one-time apiFirstYearCost with no
clamp to zero, and can therefore go negative. -/
theorem claim7_three_year_savings :
    (∀ s : SanInputs,
      savings3Year s = max 0 (manualAnnualCost s * 3 - s.yearlyIntegrationCost * 3) ∧
      savings3Year s = 3 * year1Returns s) ∧
    (∀ p : Prev.SanInputs,
      Prev.savings3Year p = Prev.manualAnnualCost p * 3 - Prev.apiFirstYearCost p) ∧
    Prev.savings3Year ⟨5000000, 10000, 1, 0⟩ < 0 := by
  refine ⟨fun s => ⟨rfl, ?_⟩, fun p => rfl, ?_⟩
  · simp only [savings3Year, year1Returns, apiFirstYearCost]
    rcases le_total (manualAnnualCost s - s.yearlyIntegrationCost) 0 with hle | hle
    · rw [max_eq_left (by linarith :
          manualAnnualCost s * 3 - s.yearlyIntegrationCost * 3 ≤ 0),
        max_eq_left hle]
      ring
    · rw [max_eq_right (by linarith :
          (0 : ℚ) ≤ manualAnnualCost s * 3 - s.yearlyIntegrationCost * 3),
        max_eq_right hle]
      ring
  · norm_num [Prev.savings3Year, Prev.manualAnnualCost, Prev.annualManualHours,
      Prev.hourlyRate, Prev.api3Year, Prev.apiFirstYearCost]

/-- C8: the sanitizer is idempotent; sanitizing an already sanitized
raw record changes nothing, field by field. -/
theorem claim8_sanitize_idempotent (x : RawInputs) :
    sanitizeJS (sanitizeJS x) = sanitizeJS x := by
  simp only [sanitizeJS]
  congr 1 <;> (apply sanitizeFieldJS_idem <;> norm_num [clampQ])

/-- C9: the chart applies a fixed 8 percent compounding inflation factor
to the manual cost: the manual line is the rounded cumulative cost
m, m * (1 + 1.08) and m * (1 + 1.08 + 1.08 squared) in years 1, 2, 3,
while the automation line stays flat at the rounded first-year cost. -/
theorem claim9_chart_inflation (m a : ℚ) :
    chartData m a =
      [ { name := "Year 1", manualProcess := jsRound m, apiAutomation := jsRound a }
      , { name := "Year 2", manualProcess := jsRound (m * (1 + 1.08)),
          apiAutomation := jsRound a }
      , { name := "Year 3", manualProcess := jsRound (m * (1 + 1.08 + 1.08 ^ 2)),
          apiAutomation := jsRound a } ] := by
  have h2 : cumulativeManualY2 m = m * (1 + 1.08) := by
    simp only [cumulativeManualY2, manualY2, inflationRate]; ring
  have h3 : cumulativeManualY3 m = m * (1 + 1.08 + 1.08 ^ 2) := by
    simp only [cumulativeManualY3, manualY3, manualY2, inflationRate]; ring
  simp only [chartData, h2, h3]

/-- C10: for every raw record the sanitized inputs give hoursPerWeek at
least 1, monthlySalary at least 10000 and a staff count of at least 1,
so manualAnnualCost is at least 52 * (10000 / 160) = 3250, strictly
positive; the guard on the monthly manual cost therefore always holds,
its fallback branch is unreachable, and breakevenMonths equals
12 * yearlyIntegrationCost / manualAnnualCost on all inputs. -/
theorem claim10_breakeven_guard (i : RawInputs) :
    1 ≤ (sanitizedInputs i).hoursPerWeek ∧
    10000 ≤ (sanitizedInputs i).monthlySalary ∧
    1 ≤ hrCount (sanitizedInputs i) ∧
    3250 ≤ manualAnnualCost (sanitizedInputs i) ∧
    0 < manualAnnualCost (sanitizedInputs i) / 12 ∧
    breakevenMonths (sanitizedInputs i) =
      12 * (sanitizedInputs i).yearlyIntegrationCost / manualAnnualCost (sanitizedInputs i) := by
  have hb := sanitized_bounds i
  have hm := manualAnnualCost_lb i
  have h12 : 0 < manualAnnualCost (sanitizedInputs i) / 12 :=
    div_pos (by linarith) (by norm_num)
  refine ⟨hb.2.2.2.2.2.2.1, hb.2.2.1, one_le_hrCount i, hm, h12, ?_⟩
  simp only [breakevenMonths, if_pos h12]
  rw [div_div_eq_mul_div]
  ring

end ROI

